import Mathlib

/-
Verification of the anime-face variational autoencoder training script
(main.py).  The script is a linear Keras pipeline; here its VAE-specific
orchestration is embedded shallowly over the reals:

  * tensors are total functions out of Fin-indexed shapes;
  * the convolutional/normalization layer primitives, the automatic
    differentiation engine and the optimizer update rule are external
    collaborators of the script and are modelled as abstract parameters,
    exactly at the call boundaries the script uses;
  * the dense layers, the Sampling layer, the loss terms, the metric
    trackers, the clipping and the control flow of train_step, of the
    training driver and of the generation loop are embedded from the
    source line by line.
-/

namespace AnimeVAE

/-- Dimensionality of the sampled latent vector (main.py line 72). -/
def latent_dim : ℕ := 32

/-- A 60 x 60 x 3 image tensor, the input shape of the encoder
(main.py line 77). -/
abbrev Img : Type := Fin 60 → Fin 60 → Fin 3 → ℝ

/-- A batch of b images. -/
abbrev Batch (b : ℕ) : Type := Fin b → Img

/-- A (b, d) matrix of reals, modelling a rank-2 tensor. -/
abbrev Mat (b d : ℕ) : Type := Fin b → Fin d → ℝ

/-- A vector of d reals. -/
abbrev Vec (d : ℕ) : Type := Fin d → ℝ

/-- The Sampling layer (main.py lines 61-66): given z_mean and z_log_var
of shape (batch, dim) and a standard-normal noise tensor epsilon of the
same shape, it returns z_mean + exp(0.5 * z_log_var) * epsilon,
componentwise.  The random draw of epsilon is external; it enters as a
parameter. -/
noncomputable def Sampling.call {b d : ℕ} (z_mean z_log_var epsilon : Mat b d) :
    Mat b d :=
  fun i j => z_mean i j + Real.exp (0.5 * z_log_var i j) * epsilon i j

/-- A Keras Dense layer: affine map given by a weight matrix and a bias
vector. -/
noncomputable def dense {inD outD : ℕ} (W : Fin outD → Fin inD → ℝ)
    (bias : Vec outD) (x : Vec inD) : Vec outD :=
  fun o => (∑ i, W o i * x i) + bias o

/-- The relu activation. -/
noncomputable def relu (x : ℝ) : ℝ := max x 0

/-- Learned parameters of the encoder (main.py lines 77-87).  The
convolutional front end, Conv2D / BatchNormalization / Dropout / Conv2D /
Flatten (lines 78-82), consists of library layer primitives, out of the
scope of the script; it is modelled as an abstract map convStack into the
flattened 15 * 15 * 64 feature vector.  The Dense layers of lines 83-85
are embedded concretely through their weight matrices. -/
structure EncoderParams where
  convStack : Img → Vec (15 * 15 * 64)
  W1 : Fin 16 → Fin (15 * 15 * 64) → ℝ
  b1 : Vec 16
  Wm : Fin latent_dim → Fin 16 → ℝ
  bm : Vec latent_dim
  Wv : Fin latent_dim → Fin 16 → ℝ
  bv : Vec latent_dim

/-- The shared feature vector x of the encoder: the Dense(16, relu) layer
of main.py line 83 applied to the flattened convolutional features. -/
noncomputable def sharedFeatures (p : EncoderParams) (img : Img) : Vec 16 :=
  fun o => relu (dense p.W1 p.b1 (p.convStack img) o)

/-- The encoder model (main.py lines 77-87): per image of the batch it
computes the shared features, applies the two Dense(latent_dim) heads
z_mean and z_log_var, samples z with the Sampling layer, and returns the
triple (z_mean, z_log_var, z) in that order. -/
noncomputable def encoder {b : ℕ} (p : EncoderParams) (data : Batch b)
    (epsilon : Mat b latent_dim) :
    Mat b latent_dim × Mat b latent_dim × Mat b latent_dim :=
  let z_mean : Mat b latent_dim := fun i => dense p.Wm p.bm (sharedFeatures p (data i))
  let z_log_var : Mat b latent_dim := fun i => dense p.Wv p.bv (sharedFeatures p (data i))
  let z : Mat b latent_dim := Sampling.call z_mean z_log_var epsilon
  (z_mean, z_log_var, z)

/-- Learned parameters of the decoder (main.py lines 95-103).  The layers
before the final activation, Dense / Reshape / Conv2DTranspose /
BatchNormalization / Dropout / Conv2DTranspose and the affine part of the
last Conv2DTranspose (lines 96-102), are library primitives; they are
modelled as an abstract preactivation map from the latent vector to a
60 x 60 x 3 tensor.  The final tanh activation of line 102 is embedded
explicitly. -/
structure DecoderParams where
  preactivation : Vec latent_dim → Img

/-- The decoder model (main.py lines 95-103): maps a latent vector to an
image by applying tanh componentwise to the preactivation of the final
Conv2DTranspose layer. -/
noncomputable def decoder (p : DecoderParams) (zvec : Vec latent_dim) : Img :=
  fun h w c => Real.tanh (p.preactivation zvec h w c)

/-- Pointwise binary cross-entropy between a target value y and a
prediction p ( losses.binary_crossentropy, out of src scope as a library
primitive, embedded by its mathematical definition). -/
noncomputable def binary_crossentropy (y p : ℝ) : ℝ :=
  -(y * Real.log p + (1 - y) * Real.log (1 - p))

/-- Keras binary_crossentropy reduces the last tensor axis by its mean;
for an image that axis is the 3 channels. -/
noncomputable def bcePixel (data recon : Img) (h : Fin 60) (w : Fin 60) : ℝ :=
  (∑ c, binary_crossentropy (data h w c) (recon h w c)) / 3

/-- The reconstruction loss of main.py lines 37-41: the per-pixel binary
cross-entropy is summed over the two spatial axes (axis=(1, 2)) and the
result is averaged over the batch (tf.reduce_mean). -/
noncomputable def reconstructionLossF {b : ℕ} (data recon : Batch b) : ℝ :=
  (∑ i, ∑ h, ∑ w, bcePixel (data i) (recon i) h w) / b

/-- The pointwise KL expression of main.py line 42:
-0.5 * (1 + z_log_var - square(z_mean) - exp(z_log_var)). -/
noncomputable def klPointwise (zm zlv : ℝ) : ℝ :=
  -0.5 * (1 + zlv - zm ^ 2 - Real.exp zlv)

/-- The KL loss of main.py lines 42-43: the pointwise expression is
summed over the latent axis (axis=1) and averaged over the batch. -/
noncomputable def klLossF {b : ℕ} (z_mean z_log_var : Mat b latent_dim) : ℝ :=
  (∑ i, ∑ j, klPointwise (z_mean i j) (z_log_var i j)) / b

/-- The closed-form KL divergence between the Gaussian N(mu, v) and the
standard normal N(0, 1), stated from the usual formula
(1/2) * (mu^2 + v - log v - 1).  This definition follows the words of the
claim, to be compared with the expression the code computes. -/
noncomputable def gaussKL (mu v : ℝ) : ℝ :=
  (mu ^ 2 + v - Real.log v - 1) / 2

/-- A keras.metrics.Mean tracker: running total and count; its result is
the mean of the values seen so far. -/
structure MeanTracker where
  total : ℝ
  count : ℕ

/-- Feeding one value into a Mean tracker. -/
noncomputable def MeanTracker.update_state (t : MeanTracker) (x : ℝ) : MeanTracker :=
  ⟨t.total + x, t.count + 1⟩

/-- The current mean held by the tracker. -/
noncomputable def MeanTracker.result (t : MeanTracker) : ℝ :=
  t.total / t.count

/-- The externally visible calls the script makes, used to state
control-flow claims as facts about call traces. -/
inductive Ev where
  | encoderCall
  | decoderCall
  | lossComputed
  | applyGradientsCall
  | loadData
  | instantiateVAE
  | compileModel
  | fitCall
  | randomNormalDraw
  | displayImage
deriving DecidableEq, Repr, BEq

/-- The VAE model of main.py lines 14-54, at the granularity train_step
uses it: the encoder and decoder passed to the constructor are arbitrary
functions of the trainable weights, and the gradient tape and the
optimizer update (library collaborators) are abstract functions.  W is the
type of the trainable weights. -/
structure VAE (W : Type) (b : ℕ) where
  encoderF : W → Batch b → Mat b latent_dim × Mat b latent_dim × Mat b latent_dim
  decoderF : W → Mat b latent_dim → Batch b
  gradientF : W → ℝ → W
  applyGradientsF : W → W → W

/-- The mutable state train_step reads and writes: the trainable weights
and the three Mean metric trackers of main.py lines 19-23. -/
structure VAEState (W : Type) where
  weights : W
  total_loss_tracker : MeanTracker
  reconstruction_loss_tracker : MeanTracker
  kl_loss_tracker : MeanTracker

/-- What one call of train_step produces: the updated state, the three
reported metric values of main.py lines 50-54, and the trace of external
calls it made, in order. -/
structure TrainStepResult (W : Type) where
  state : VAEState W
  loss : ℝ
  reconstruction_loss : ℝ
  kl_loss : ℝ
  trace : List Ev

/-- VAE.train_step (main.py lines 33-54), embedded statement by
statement: encode the batch, decode the sampled z, form the
reconstruction and KL losses, sum them, take the gradient of the total
loss, apply it once through the optimizer, update the three trackers, and
report the tracker results. -/
noncomputable def train_step {W : Type} {b : ℕ} (m : VAE W b) (s : VAEState W)
    (data : Batch b) : TrainStepResult W :=
  let enc := m.encoderF s.weights data
  let z_mean := enc.1
  let z_log_var := enc.2.1
  let z := enc.2.2
  let reconstruction := m.decoderF s.weights z
  let reconstruction_loss := reconstructionLossF data reconstruction
  let kl_loss := klLossF z_mean z_log_var
  let total_loss := reconstruction_loss + kl_loss
  let grads := m.gradientF s.weights total_loss
  let weights1 := m.applyGradientsF s.weights grads
  let tt := s.total_loss_tracker.update_state total_loss
  let rt := s.reconstruction_loss_tracker.update_state reconstruction_loss
  let kt := s.kl_loss_tracker.update_state kl_loss
  { state := ⟨weights1, tt, rt, kt⟩
    loss := tt.result
    reconstruction_loss := rt.result
    kl_loss := kt.result
    trace := [Ev.encoderCall, Ev.decoderCall, Ev.lossComputed, Ev.applyGradientsCall] }

/-- A (height, width, channels) tensor shape. -/
structure Shape3 where
  height : ℕ
  width : ℕ
  channels : ℕ
deriving DecidableEq, Repr

/-- Spatial size produced by a Conv2DTranspose layer with padding="same":
the input size times the stride. -/
def convTransposeSame (n stride : ℕ) : ℕ := n * stride

/-- The input shape of the encoder, keras.Input(shape=(60, 60, 3))
(main.py line 77). -/
def encoderInputShape : Shape3 := ⟨60, 60, 3⟩

/-- The unit count of the first decoder Dense layer (main.py line 96). -/
def decoderDenseUnits : ℕ := 15 * 15 * 128

/-- The target of the decoder Reshape layer (main.py line 97). -/
def decoderReshapeShape : Shape3 := ⟨15, 15, 128⟩

/-- The output shape of the decoder (main.py lines 95-103), computed
layer by layer: Reshape to (15, 15, 128), Conv2DTranspose stride 2 twice,
and a final Conv2DTranspose with 3 filters and the default stride 1. -/
def decoderOutputShape : Shape3 :=
  let r := decoderReshapeShape
  let c1 : Shape3 := ⟨convTransposeSame r.height 2, convTransposeSame r.width 2, 64⟩
  let c2 : Shape3 := ⟨convTransposeSame c1.height 2, convTransposeSame c1.width 2, 32⟩
  ⟨convTransposeSame c2.height 1, convTransposeSame c2.width 1, 3⟩

/-- The training hyperparameters of the driver (main.py lines 111-123),
all of them literal constants of the script. -/
structure DriverConfig where
  datasetSlice : ℕ
  pixelDivisor : ℚ
  learning_rate : ℚ
  epochs : ℕ
  batch_size : ℕ

/-- The concrete driver configuration: x_train[:15000], x_train / 255,
Adam(learning_rate=0.002), epochs=1000, batch_size=64. -/
def driverConfig : DriverConfig :=
  { datasetSlice := 15000
    pixelDivisor := 255
    learning_rate := 0.002
    epochs := 1000
    batch_size := 64 }

/-- The preprocessing of the driver on the loaded pixel data (main.py
lines 115-118): keep the first 15000 entries and divide by 255. -/
def preprocess (raw : List ℚ) : List ℚ :=
  (raw.take driverConfig.datasetSlice).map (fun v => v / driverConfig.pixelDivisor)

/-- The trace of the training driver (main.py lines 111-123): load the
dataset, build the VAE from the already built encoder and decoder,
compile it with the Adam optimizer, then call fit. -/
def driverTrace : List Ev :=
  [Ev.loadData, Ev.instantiateVAE, Ev.compileModel, Ev.fitCall]

/-- np.clip with scalar bounds lo and hi: values below lo go to lo,
values above hi go to hi. -/
noncomputable def np_clip (lo hi x : ℝ) : ℝ := max lo (min x hi)

/-- Componentwise np.clip(image, 0, 1) of main.py line 141. -/
noncomputable def clipImage (img : Img) : Img :=
  fun h w c => np_clip 0 1 (img h w c)

/-- The number of images the generation loop produces,
range(12) (main.py line 133). -/
def numGenerated : ℕ := 12

/-- The loc argument of np.random.normal in the generation loop
(main.py line 136). -/
def generation_loc : ℝ := 0

/-- The scale argument of np.random.normal in the generation loop
(main.py line 136). -/
def generation_scale : ℝ := 1

/-- One pass of the generation loop body (main.py lines 136-145): decode
the drawn latent vector with the standalone decoder, reshape to
(60, 60, 3) (a no-op in this embedding, where the decoder output already
has that shape) and clip into [0, 1].  The random draw is external and
enters as the parameter draw. -/
noncomputable def generatedImage (p : DecoderParams) (draw : Vec latent_dim) : Img :=
  clipImage (decoder p draw)

/-- All images the generation loop displays, in loop order. -/
noncomputable def generationImages (p : DecoderParams)
    (draws : Fin numGenerated → Vec latent_dim) : List Img :=
  (List.finRange numGenerated).map (fun i => generatedImage p (draws i))

/-- The trace of the generation loop: twelve iterations, each drawing a
random latent vector, calling the decoder and displaying the image; the
encoder is never called. -/
def generationTrace : List Ev :=
  (List.finRange numGenerated).flatMap
    (fun _ => [Ev.randomNormalDraw, Ev.decoderCall, Ev.displayImage])

/-- A degenerate VAE over trivial weights, used to evaluate train_step at
a concrete input. -/
noncomputable def trivVAE : VAE Unit 1 :=
  { encoderF := fun _ _ => (fun _ _ => 0, fun _ _ => 0, fun _ _ => 0)
    decoderF := fun _ _ => fun _ _ _ _ => 1 / 2
    gradientF := fun _ _ => ()
    applyGradientsF := fun _ _ => () }

/-- A fresh training state: trivial weights, all trackers at zero. -/
noncomputable def trivState : VAEState Unit :=
  ⟨(), ⟨0, 0⟩, ⟨0, 0⟩, ⟨0, 0⟩⟩

/-- A concrete one-image batch with all pixels at 1/2. -/
noncomputable def trivData : Batch 1 := fun _ _ _ _ => 1 / 2

/-- A concrete decoder whose preactivation is identically zero. -/
noncomputable def trivDecoder : DecoderParams := ⟨fun _ => fun _ _ _ => 0⟩

/-- Upper bound of the hyperbolic tangent. -/
theorem tanh_le_one (x : ℝ) : Real.tanh x ≤ 1 := by
  rw [Real.tanh_eq_sinh_div_cosh]
  exact le_of_lt ((div_lt_one (Real.cosh_pos x)).mpr (Real.sinh_lt_cosh x))

/-- Lower bound of the hyperbolic tangent. -/
theorem neg_one_le_tanh (x : ℝ) : -1 ≤ Real.tanh x := by
  have h := tanh_le_one (-x)
  rw [Real.tanh_neg] at h
  linarith

/-- The hyperbolic tangent is negative at -1. -/
theorem tanh_neg_one_lt_zero : Real.tanh (-1) < 0 := by
  have h1 : 0 < Real.sinh 1 := Real.sinh_pos_iff.mpr one_pos
  have h2 : 0 < Real.tanh 1 := by
    rw [Real.tanh_eq_sinh_div_cosh]
    exact div_pos h1 (Real.cosh_pos 1)
  rw [show (-1 : ℝ) = -(1 : ℝ) from rfl, Real.tanh_neg]
  linarith

/-- C1: for every batch, train_step applies the encoder to the batch,
applies the decoder to the sampled latent z, computes the loss from that
reconstruction, and performs exactly one gradient update on the weights
before returning: the outgoing weights are one applyGradients application
on the incoming weights, and the call trace holds exactly one gradient
step, after the encoder, decoder and loss computations. -/
theorem train_step_control_flow {W : Type} {b : ℕ} (m : VAE W b) (s : VAEState W)
    (data : Batch b) :
    (train_step m s data).state.weights
        = m.applyGradientsF s.weights (m.gradientF s.weights
            (reconstructionLossF data (m.decoderF s.weights (m.encoderF s.weights data).2.2)
              + klLossF (m.encoderF s.weights data).1 (m.encoderF s.weights data).2.1))
      ∧ (train_step m s data).trace
          = [Ev.encoderCall, Ev.decoderCall, Ev.lossComputed, Ev.applyGradientsCall]
      ∧ (train_step m s data).trace.count Ev.applyGradientsCall = 1 :=
  ⟨rfl, rfl, rfl⟩

/-- C2: the Sampling layer returns z_mean + exp(0.5 * z_log_var) * epsilon
componentwise, which is the reparameterized draw
mean + sqrt(variance) * epsilon from the Gaussian with mean z_mean and
variance exp(z_log_var). -/
theorem sampling_reparameterization {b d : ℕ} (z_mean z_log_var epsilon : Mat b d)
    (i : Fin b) (j : Fin d) :
    Sampling.call z_mean z_log_var epsilon i j
        = z_mean i j + Real.exp (0.5 * z_log_var i j) * epsilon i j
      ∧ Sampling.call z_mean z_log_var epsilon i j
        = z_mean i j + Real.sqrt (Real.exp (z_log_var i j)) * epsilon i j := by
  refine ⟨rfl, ?_⟩
  have hs : Real.sqrt (Real.exp (z_log_var i j)) = Real.exp (0.5 * z_log_var i j) := by
    have h1 : Real.exp (z_log_var i j)
        = Real.exp (0.5 * z_log_var i j) * Real.exp (0.5 * z_log_var i j) := by
      rw [← Real.exp_add]
      ring_nf
    rw [h1, Real.sqrt_mul_self (Real.exp_nonneg _)]
  simp only [Sampling.call, hs]

/-- C3: the total loss train_step differentiates is exactly the sum of
the reconstruction loss and the KL loss, with no weighting factor, and
the value reported under the key loss equals the sum of the reported
reconstruction and KL values whenever the three Mean trackers have seen
matching updates (as they have after any run of train_step calls from a
fresh state). -/
theorem train_step_total_loss_is_sum {W : Type} {b : ℕ} (m : VAE W b) (s : VAEState W)
    (data : Batch b)
    (hsum : s.total_loss_tracker.total
        = s.reconstruction_loss_tracker.total + s.kl_loss_tracker.total)
    (hc1 : s.reconstruction_loss_tracker.count = s.total_loss_tracker.count)
    (hc2 : s.kl_loss_tracker.count = s.total_loss_tracker.count) :
    (train_step m s data).state.weights
        = m.applyGradientsF s.weights (m.gradientF s.weights
            (reconstructionLossF data (m.decoderF s.weights (m.encoderF s.weights data).2.2)
              + klLossF (m.encoderF s.weights data).1 (m.encoderF s.weights data).2.1))
      ∧ (train_step m s data).loss
          = (train_step m s data).reconstruction_loss + (train_step m s data).kl_loss := by
  refine ⟨rfl, ?_⟩
  simp only [train_step, MeanTracker.update_state, MeanTracker.result]
  rw [hsum, hc1, hc2, div_add_div_same]
  congr 1
  ring

/-- C3 witness: the two conclusions evaluated on the degenerate VAE, the
fresh state and the concrete batch. -/
theorem train_step_total_loss_is_sum_witness :
    (train_step trivVAE trivState trivData).state.weights
        = trivVAE.applyGradientsF trivState.weights (trivVAE.gradientF trivState.weights
            (reconstructionLossF trivData (trivVAE.decoderF trivState.weights
                (trivVAE.encoderF trivState.weights trivData).2.2)
              + klLossF (trivVAE.encoderF trivState.weights trivData).1
                  (trivVAE.encoderF trivState.weights trivData).2.1))
      ∧ (train_step trivVAE trivState trivData).loss
          = (train_step trivVAE trivState trivData).reconstruction_loss
            + (train_step trivVAE trivState trivData).kl_loss :=
  train_step_total_loss_is_sum trivVAE trivState trivData
    (by simp [trivState]) rfl rfl

/-- C4: the encoder returns the triple (z_mean, z_log_var, z) in that
order, where z_mean and z_log_var are the Dense(latent_dim) heads applied
to the shared feature vector and z is the Sampling layer applied to
(z_mean, z_log_var). -/
theorem encoder_returns_triple {b : ℕ} (p : EncoderParams) (data : Batch b)
    (epsilon : Mat b latent_dim) :
    encoder p data epsilon
      = (fun i => dense p.Wm p.bm (sharedFeatures p (data i)),
         fun i => dense p.Wv p.bv (sharedFeatures p (data i)),
         Sampling.call (fun i => dense p.Wm p.bm (sharedFeatures p (data i)))
           (fun i => dense p.Wv p.bv (sharedFeatures p (data i))) epsilon) := rfl

/-- C5: the decoder output shape, computed layer by layer from the
decoder architecture, is 60 x 60 x 3, the input shape of the encoder;
the latent dimension is 32 and the Dense/Reshape sizes agree. -/
theorem decoder_shape_preserving :
    decoderOutputShape = encoderInputShape
      ∧ encoderInputShape = ⟨60, 60, 3⟩
      ∧ latent_dim = 32
      ∧ decoderDenseUnits
          = decoderReshapeShape.height * decoderReshapeShape.width
            * decoderReshapeShape.channels := by
  decide

/-- C6: the driver runs load data, instantiate the VAE, compile, fit, in
that fixed order; the hyperparameters are the literal constants 1000
epochs, batch size 64, Adam learning rate 0.002 = 1/500, dataset slice
15000, pixel scale division by 255, none derived from any input. -/
theorem driver_fixed_pipeline :
    driverTrace = [Ev.loadData, Ev.instantiateVAE, Ev.compileModel, Ev.fitCall]
      ∧ driverConfig.epochs = 1000
      ∧ driverConfig.batch_size = 64
      ∧ driverConfig.learning_rate = 1 / 500
      ∧ driverConfig.datasetSlice = 15000
      ∧ ∀ raw : List ℚ, preprocess raw = (raw.take 15000).map (fun v => v / 255) :=
  ⟨rfl, rfl, rfl, by norm_num [driverConfig], rfl, fun raw => rfl⟩

/-- C7: the generation phase produces exactly 12 images, each the clipped
decoding of one drawn latent vector of length latent_dim, using the
decoder standalone; its trace holds 12 random draws, 12 decoder calls and
no encoder call, and the normal draw uses loc 0 and scale 1. -/
theorem generation_loop_shape (p : DecoderParams)
    (draws : Fin numGenerated → Vec latent_dim) :
    (generationImages p draws).length = 12
      ∧ generationImages p draws
          = (List.finRange numGenerated).map (fun i => clipImage (decoder p (draws i)))
      ∧ generationTrace.count Ev.decoderCall = 12
      ∧ generationTrace.count Ev.randomNormalDraw = 12
      ∧ generationTrace.count Ev.displayImage = 12
      ∧ generationTrace.count Ev.encoderCall = 0
      ∧ generation_loc = 0 ∧ generation_scale = 1 := by
  refine ⟨?_, rfl, by decide, by decide, by decide, by decide, rfl, rfl⟩
  simp [generationImages, numGenerated]

/-- C8: the KL loss of train_step is the batch mean of the per-example
sum over the latent coordinates of
-0.5 * (1 + z_log_var - z_mean^2 - exp(z_log_var)), and that expression
is the closed-form KL divergence between the predicted diagonal Gaussian
N(z_mean, exp(z_log_var)) and the standard normal prior. -/
theorem kl_loss_closed_form {b : ℕ} (z_mean z_log_var : Mat b latent_dim) :
    klLossF z_mean z_log_var
        = (∑ i, ∑ j, -0.5 * (1 + z_log_var i j - z_mean i j ^ 2
            - Real.exp (z_log_var i j))) / b
      ∧ klLossF z_mean z_log_var
        = (∑ i, ∑ j, gaussKL (z_mean i j) (Real.exp (z_log_var i j))) / b := by
  refine ⟨rfl, ?_⟩
  unfold klLossF gaussKL klPointwise
  congr 1
  refine Finset.sum_congr rfl (fun i _ => Finset.sum_congr rfl (fun j _ => ?_))
  rw [Real.log_exp]
  ring

/-- C9: every component of the decoder output lies in [-1, 1], because
the final activation is tanh; and the output can indeed be negative, so
the reconstruction handed to the binary cross-entropy can be negative. -/
theorem decoder_output_bounded (p : DecoderParams) (zvec : Vec latent_dim)
    (h : Fin 60) (w : Fin 60) (c : Fin 3) :
    (-1 ≤ decoder p zvec h w c ∧ decoder p zvec h w c ≤ 1)
      ∧ ∃ q : DecoderParams, decoder q zvec h w c < 0 :=
  ⟨⟨neg_one_le_tanh _, tanh_le_one _⟩,
   ⟨⟨fun _ => fun _ _ _ => -1⟩, tanh_neg_one_lt_zero⟩⟩

/-- C10: every pixel the generation loop displays is clipped into [0, 1]:
the clipped decoder output lies in [0, 1], and np.clip with bounds 0 and
1 sends values below 0 to 0, values above 1 to 1, and keeps values
already in [0, 1] unchanged. -/
theorem np_clip_into_unit_interval (p : DecoderParams) (draw : Vec latent_dim)
    (h : Fin 60) (w : Fin 60) (c : Fin 3) (x : ℝ) :
    (0 ≤ generatedImage p draw h w c ∧ generatedImage p draw h w c ≤ 1)
      ∧ (x < 0 → np_clip 0 1 x = 0)
      ∧ (1 < x → np_clip 0 1 x = 1)
      ∧ (0 ≤ x → x ≤ 1 → np_clip 0 1 x = x) := by
  refine ⟨⟨?_, ?_⟩, ?_, ?_, ?_⟩
  · simp only [generatedImage, clipImage, np_clip]
    exact le_max_left _ _
  · simp only [generatedImage, clipImage, np_clip]
    exact max_le (by norm_num) (min_le_right _ _)
  · intro hx
    simp only [np_clip]
    rw [min_eq_left (le_of_lt (hx.trans one_pos)), max_eq_left hx.le]
  · intro hx
    simp only [np_clip]
    rw [min_eq_right hx.le, max_eq_right zero_le_one]
  · intro h0 h1
    simp only [np_clip]
    rw [min_eq_left h1, max_eq_right h0]

/-- C10 witness: the three clipping cases evaluated at -2, 2 and 1/2. -/
theorem np_clip_into_unit_interval_witness :
    np_clip 0 1 (-2) = 0 ∧ np_clip 0 1 2 = 1 ∧ np_clip 0 1 (1 / 2) = 1 / 2 :=
  ⟨(np_clip_into_unit_interval trivDecoder (fun _ => 0) 0 0 0 (-2)).2.1 (by norm_num),
   (np_clip_into_unit_interval trivDecoder (fun _ => 0) 0 0 0 2).2.2.1 (by norm_num),
   (np_clip_into_unit_interval trivDecoder (fun _ => 0) 0 0 0 (1 / 2)).2.2.2
     (by norm_num) (by norm_num)⟩

end AnimeVAE
